import Mathlib

/-
Formalisation of the two data-preparation scripts of the
mojahrvatska-com-hr repository:

  * generate-search-index.mjs : flattens the typed data tables
    (ZUPANIJE, GRADOVI, OPCINE) into search-index.json and
    locations-compare.json;
  * fetch-wiki-data.mjs : merges Wikidata SPARQL results and HR
    Wikipedia summaries into wiki-enrichment.json, and generates
    analytical conclusions from census statistics.

Numbers from the data tables are modelled as rationals, JavaScript
objects as association lists, HTTP fetches as oracle functions from
the request key to an optional response, and the generated Croatian
sentences as an inductive type with one constructor per template
string, carrying the interpolated values.
-/

attribute [local semireducible] Rat.mul Rat.add Rat.sub Rat.inv Rat.ofScientific

/-- The type tag of a location record: county, city or municipality. -/
inductive LocType where
  | zupanija
  | grad
  | opcina
deriving DecidableEq, Repr

/-- A record of one of the three data tables (src/data/zupanije.ts,
gradovi.ts, opcine.ts), with the fields the two scripts read. -/
structure Loc where
  id : Nat
  name : String
  slug : String
  type : LocType
  county_id : Option Nat
  county_name : String
  population_2021 : ℚ
  change_pct : ℚ
  density : ℚ
  avg_age : ℚ
  age_65_plus_pct : ℚ
  age_0_14_pct : ℚ
  education_university_pct : Option ℚ
  male_pct : ℚ
  female_pct : ℚ
deriving DecidableEq, Repr

/-- One entry of search-index.json; the structure has exactly the five
fields name, slug, type, county and pop that the script emits. -/
structure SearchEntry where
  name : String
  slug : String
  type : String
  county : String
  pop : ℚ
deriving DecidableEq, Repr

/-- Search entry built from a county record: type is the literal
string zupanija and county is the empty string. -/
def searchOfZupanija (z : Loc) : SearchEntry :=
  { name := z.name, slug := z.slug, type := "zupanija", county := "", pop := z.population_2021 }

/-- Search entry built from a city record. -/
def searchOfGrad (g : Loc) : SearchEntry :=
  { name := g.name, slug := g.slug, type := "grad", county := g.county_name, pop := g.population_2021 }

/-- Search entry built from a municipality record. -/
def searchOfOpcina (o : Loc) : SearchEntry :=
  { name := o.name, slug := o.slug, type := "opcina", county := o.county_name, pop := o.population_2021 }

/-- The searchIndex array of generate-search-index.mjs: counties, then
cities, then municipalities, each mapped to a compact entry. -/
def searchIndex (zupanije gradovi opcine : List Loc) : List SearchEntry :=
  zupanije.map (fun z =>
    { name := z.name, slug := z.slug, type := "zupanija", county := "", pop := z.population_2021 })
  ++ gradovi.map (fun g =>
    { name := g.name, slug := g.slug, type := "grad", county := g.county_name, pop := g.population_2021 })
  ++ opcine.map (fun o =>
    { name := o.name, slug := o.slug, type := "opcina", county := o.county_name, pop := o.population_2021 })

/-- One entry of locations-compare.json. -/
structure CompareEntry where
  name : String
  slug : String
  type : LocType
  county_name : String
  population_2021 : ℚ
  change_pct : ℚ
  density : ℚ
  avg_age : ℚ
  education_university_pct : Option ℚ
  male_pct : ℚ
  female_pct : ℚ
deriving DecidableEq, Repr

/-- Compare entry built from a city or municipality record; the per
record mapping is identical for the two tables. -/
def compareOf (g : Loc) : CompareEntry :=
  { name := g.name, slug := g.slug, type := g.type, county_name := g.county_name,
    population_2021 := g.population_2021, change_pct := g.change_pct, density := g.density,
    avg_age := g.avg_age, education_university_pct := g.education_university_pct,
    male_pct := g.male_pct, female_pct := g.female_pct }

/-- The compareData array of generate-search-index.mjs: cities then
municipalities; the county table is not an input at all. -/
def compareData (gradovi opcine : List Loc) : List CompareEntry :=
  gradovi.map (fun g =>
    { name := g.name, slug := g.slug, type := g.type, county_name := g.county_name,
      population_2021 := g.population_2021, change_pct := g.change_pct, density := g.density,
      avg_age := g.avg_age, education_university_pct := g.education_university_pct,
      male_pct := g.male_pct, female_pct := g.female_pct })
  ++ opcine.map (fun o =>
    { name := o.name, slug := o.slug, type := o.type, county_name := o.county_name,
      population_2021 := o.population_2021, change_pct := o.change_pct, density := o.density,
      avg_age := o.avg_age, education_university_pct := o.education_university_pct,
      male_pct := o.male_pct, female_pct := o.female_pct })

/-- One generated Croatian conclusion sentence. Each constructor stands
for one template string pushed by generateConclusions and carries the
values interpolated into that template. -/
inductive Sentence where
  | growthStrong (changePct : ℚ)
  | growthMild (changePct : ℚ)
  | declineModerate (changePct : ℚ)
  | declineSignificant (changePct : ℚ)
  | declineDrastic (changePct : ℚ)
  | densityFarAbove (density : ℚ)
  | densityAbove (density : ℚ)
  | densityBelow (density : ℚ)
  | ageVeryOld (avgAge : ℚ)
  | ageAboveAverage (avgAge : ℚ)
  | ageBelowAverage (avgAge : ℚ)
  | youthAboveAverage (share014 : ℚ)
  | elderlyFarAbove (share65 : ℚ)
  | eduFarAbove (uniPct : ℚ)
  | eduBelow (uniPct : ℚ)
  | countyCenter (locName countyName : String) (sharePct : ℚ)
  | muniSmallest
  | muniLarger
  | cityLargest (locName : String)
  | citySmallest (locName : String)
deriving DecidableEq, Repr

/-- The population-change verdict: the first if-else chain of
generateConclusions always pushes exactly one sentence. -/
def changeVerdict (change : ℚ) : Sentence :=
  if change > 5 then Sentence.growthStrong change
  else if change > 0 then Sentence.growthMild change
  else if change > -5 then Sentence.declineModerate change
  else if change > -15 then Sentence.declineSignificant change
  else Sentence.declineDrastic change

/-- Translation of generateConclusions from fetch-wiki-data.mjs.
The gradovi and opcine parameters are part of the JavaScript signature
but are never read by the body. -/
def generateConclusions (location : Loc) (type : LocType)
    (zupanije gradovi opcine : List Loc) : List Sentence :=
  let nationalDensity : ℚ := 68.4
  let nationalAvgAge : ℚ := 43.7
  let pop := location.population_2021
  let change := location.change_pct
  let density := location.density
  let avgAge := location.avg_age
  let age65 := location.age_65_plus_pct
  let age014 := location.age_0_14_pct
  let c2 : List Sentence :=
    if type ≠ LocType.zupanija then
      if density > nationalDensity * 5 then [Sentence.densityFarAbove density]
      else if density > nationalDensity * 1.5 then [Sentence.densityAbove density]
      else if density < nationalDensity * 0.5 then [Sentence.densityBelow density]
      else []
    else []
  let c3 : List Sentence :=
    if avgAge > 48 then [Sentence.ageVeryOld avgAge]
    else if avgAge > nationalAvgAge + 2 then [Sentence.ageAboveAverage avgAge]
    else if avgAge < nationalAvgAge - 3 then [Sentence.ageBelowAverage avgAge]
    else []
  let c4a : List Sentence := if age014 > 16 then [Sentence.youthAboveAverage age014] else []
  let c4b : List Sentence := if age65 > 28 then [Sentence.elderlyFarAbove age65] else []
  let c5 : List Sentence :=
    match location.education_university_pct with
    | some uniPct =>
      if uniPct > 25 then [Sentence.eduFarAbove uniPct]
      else if uniPct < 10 then [Sentence.eduBelow uniPct]
      else []
    | none => []
  let c6 : List Sentence :=
    if type ≠ LocType.zupanija then
      match location.county_id with
      | some cid =>
        if cid ≠ 0 then
          match zupanije.find? (fun z => z.id == cid) with
          | some county =>
            if pop > county.population_2021 * 0.3 then
              [Sentence.countyCenter location.name county.name (pop / county.population_2021 * 100)]
            else []
          | none => []
        else []
      | none => []
    else []
  let c7 : List Sentence :=
    if type = LocType.opcina then
      if pop < 500 then [Sentence.muniSmallest]
      else if pop > 10000 then [Sentence.muniLarger]
      else []
    else if type = LocType.grad then
      if pop > 100000 then [Sentence.cityLargest location.name]
      else if pop < 3000 then [Sentence.citySmallest location.name]
      else []
    else []
  (changeVerdict change :: (c2 ++ c3 ++ c4a ++ c4b ++ c5 ++ c6 ++ c7)).take 5

/-- A grouped Wikidata result for one location name, as produced by
processWikidataResults: the value of wikidataMap at that name. -/
structure WdEntry where
  coatOfArms : Option String
  photo : Option String
  postalCode : Option String
  elevation : Option ℚ
  officialWebsite : Option String
  licensePlate : Option String
  sisterCities : List String
deriving DecidableEq, Repr

/-- The value returned by a successful fetchWikipediaSummary call. -/
structure WikiSummary where
  description : Option String
  thumbnail : Option String
deriving DecidableEq, Repr

/-- The JSON body of a successful Wikipedia summary response: the
extract string and the optional thumbnail source. -/
structure SummaryBody where
  extract : Option String
  thumbnailSource : Option String
deriving DecidableEq, Repr

/-- Outcome of the HTTP request made by fetchWikipediaSummary: an OK
response with a body, a non-OK status, or a thrown network error. -/
inductive HttpResult where
  | ok (body : SummaryBody)
  | notOk (status : Nat)
  | networkError
deriving DecidableEq, Repr

/-- JavaScript coercion x or-else null for an optional string: the
empty string is falsy and collapses to null. -/
def falsyToNull (o : Option String) : Option String :=
  match o with
  | some s => if s = "" then none else some s
  | none => none

/-- Translation of fetchWikipediaSummary: on an OK response it returns
the extract and thumbnail source (empty strings collapsed to null by
the or-null coercions); on a non-OK status it returns null; the catch
block turns a network error into null as well. -/
def fetchWikipediaSummary (resp : HttpResult) : Option WikiSummary :=
  match resp with
  | HttpResult.ok body =>
    some { description := falsyToNull body.extract, thumbnail := falsyToNull body.thumbnailSource }
  | HttpResult.notOk _ => none
  | HttpResult.networkError => none

/-- Translation of getWikiTitle: counties use their plain name, the
titleMap sends the record Grad Zagreb to Zagreb, every other location
uses its plain name. -/
def getWikiTitle (loc : Loc) : String :=
  if loc.type = LocType.zupanija then loc.name
  else if loc.name = "Grad Zagreb" then "Zagreb"
  else loc.name

/-- One enrichment record of wiki-enrichment.json, before the cleanup
pass; absent JSON fields are none or the empty list. -/
structure EnrichEntry where
  description : Option String
  thumbnail : Option String
  coatOfArms : Option String
  photo : Option String
  postalCode : Option String
  elevation : Option ℚ
  officialWebsite : Option String
  licensePlate : Option String
  sisterCities : List String
  conclusions : List Sentence
deriving DecidableEq, Repr

/-- The all-null entry the loop initialises enrichment at each slug to. -/
def emptyEntry : EnrichEntry :=
  { description := none, thumbnail := none, coatOfArms := none, photo := none,
    postalCode := none, elevation := none, officialWebsite := none, licensePlate := none,
    sisterCities := [], conclusions := [] }

/-- Copying the seven Wikidata fields of a wikidataMap match into an
enrichment entry, as the two assignment blocks of the loop do. -/
def applyWd (e : EnrichEntry) (w : WdEntry) : EnrichEntry :=
  { e with
    coatOfArms := w.coatOfArms, photo := w.photo, postalCode := w.postalCode,
    elevation := w.elevation, officialWebsite := w.officialWebsite,
    licensePlate := w.licensePlate, sisterCities := w.sisterCities }

/-- Copying a Wikipedia summary into an enrichment entry; both arms of
the conditional in the script assign the thumbnail identically. -/
def wpApply (e : EnrichEntry) (s : WikiSummary) : EnrichEntry :=
  { e with description := s.description, thumbnail := s.thumbnail }

/-- JavaScript falsiness of the optional description string. -/
def descFalsy (o : Option String) : Bool :=
  match o with
  | none => true
  | some s => s = ""

/-- A recorded lookup step of the per-location enrichment, with the
key used and whether it found anything: an exact wikidataMap access, a
suffix-stripped wikidataMap access, the primary Wikipedia fetch, or an
alternate-title Wikipedia fetch. -/
inductive Lookup where
  | wdExact (name : String) (found : Bool)
  | wdStripped (name : String) (found : Bool)
  | wpPrimary (title : String) (found : Bool)
  | wpAlt (title : String) (found : Bool)
deriving DecidableEq, Repr

/-- The Wikidata-matching phase of the loop body: the exact lookup at
the location name, then, only when that found nothing and the location
is a county, the lookup at the name with the zupanija suffix and the
Grad prefix stripped, or-else a repeated exact lookup. Returns the
updated entry and the trace of map accesses. -/
def wdPhase (wdMap : String → Option WdEntry) (loc : Loc) : EnrichEntry × List Lookup :=
  let wd := wdMap loc.name
  let e1 := match wd with
    | some w => applyWd emptyEntry w
    | none => emptyEntry
  let t1 := [Lookup.wdExact loc.name wd.isSome]
  if wd.isNone ∧ loc.type = LocType.zupanija then
    let shortName := (loc.name.replace " županija" "").replace "Grad " ""
    match wdMap shortName with
    | some w2 => (applyWd e1 w2, t1 ++ [Lookup.wdStripped shortName true])
    | none =>
      match wdMap loc.name with
      | some w2 => (applyWd e1 w2, t1 ++ [Lookup.wdStripped shortName false, Lookup.wdExact loc.name true])
      | none => (e1, t1 ++ [Lookup.wdStripped shortName false, Lookup.wdExact loc.name false])
  else (e1, t1)

/-- The Wikipedia phase of the loop body: fetch the primary title; on a
miss, municipalities retry with the opcina alternate title and cities
with the grad alternate title (the latter guarded by the description
still being falsy). Returns the updated entry and the fetch trace. -/
def wpPhase (wiki : String → Option WikiSummary) (loc : Loc) (e : EnrichEntry) :
    EnrichEntry × List Lookup :=
  let wikiTitle := getWikiTitle loc
  match wiki wikiTitle with
  | some s => (wpApply e s, [Lookup.wpPrimary wikiTitle true])
  | none =>
    let ra :=
      if loc.type = LocType.opcina then
        let altTitle := loc.name ++ " (općina)"
        match wiki altTitle with
        | some s2 => (wpApply e s2, [Lookup.wpAlt altTitle true])
        | none => (e, [Lookup.wpAlt altTitle false])
      else (e, [])
    let rb :=
      if loc.type = LocType.grad ∧ descFalsy ra.1.description then
        let altTitle := loc.name ++ " (grad)"
        match wiki altTitle with
        | some s2 => (wpApply ra.1 s2, [Lookup.wpAlt altTitle true])
        | none => (ra.1, [Lookup.wpAlt altTitle false])
      else (ra.1, [])
    (rb.1, [Lookup.wpPrimary wikiTitle false] ++ ra.2 ++ rb.2)

/-- The whole loop body of fetch-wiki-data.mjs for a single location:
Wikidata matching, then the Wikipedia fetches, then the generated
conclusions; paired with the trace of all lookups in order. -/
def enrichLocationT (wdMap : String → Option WdEntry) (wiki : String → Option WikiSummary)
    (zupanije gradovi opcine : List Loc) (loc : Loc) : EnrichEntry × List Lookup :=
  let rwd := wdPhase wdMap loc
  let rwp := wpPhase wiki loc rwd.1
  ({ rwp.1 with conclusions := generateConclusions loc loc.type zupanije gradovi opcine },
    rwd.2 ++ rwp.2)

/-- The enrichment entry computed for one location. -/
def enrichLocation (wdMap : String → Option WdEntry) (wiki : String → Option WikiSummary)
    (zupanije gradovi opcine : List Loc) (loc : Loc) : EnrichEntry :=
  (enrichLocationT wdMap wiki zupanije gradovi opcine loc).1

/-- The lookup trace of the enrichment of one location. -/
def enrichTrace (wdMap : String → Option WdEntry) (wiki : String → Option WikiSummary)
    (zupanije gradovi opcine : List Loc) (loc : Loc) : List Lookup :=
  (enrichLocationT wdMap wiki zupanije gradovi opcine loc).2

/-- The allLocations array of fetch-wiki-data.mjs: every county record
tagged with the zupanija type, then the city records, then the
municipality records. -/
def allLocations (zupanije gradovi opcine : List Loc) : List Loc :=
  zupanije.map (fun z => { z with type := LocType.zupanija }) ++ gradovi ++ opcine

/-- JavaScript object assignment on an association list: if the key is
already present its value is replaced in place, otherwise the pair is
appended at the end. -/
def objInsert (m : List (String × EnrichEntry)) (k : String) (v : EnrichEntry) :
    List (String × EnrichEntry) :=
  if m.any (fun p => p.1 == k) then
    m.map (fun p => if p.1 == k then (k, v) else p)
  else m ++ [(k, v)]

/-- The enrichment object after the main loop, before cleanup: each
location in order stores its computed entry under its slug. -/
def buildEnrichmentRaw (wdMap : String → Option WdEntry) (wiki : String → Option WikiSummary)
    (zupanije gradovi opcine : List Loc) : List (String × EnrichEntry) :=
  (allLocations zupanije gradovi opcine).foldl
    (fun m loc => objInsert m loc.slug (enrichLocation wdMap wiki zupanije gradovi opcine loc)) []

/-- The cleanup pass on one entry: falsy string fields are deleted
(modelled as none); elevation is deleted only when null, and the
sisterCities and conclusions lists are deleted only when empty, which
the list model leaves unchanged. -/
def cleanupEntry (e : EnrichEntry) : EnrichEntry :=
  { e with
    description := falsyToNull e.description, thumbnail := falsyToNull e.thumbnail,
    coatOfArms := falsyToNull e.coatOfArms, photo := falsyToNull e.photo,
    postalCode := falsyToNull e.postalCode, officialWebsite := falsyToNull e.officialWebsite,
    licensePlate := falsyToNull e.licensePlate }

/-- The enrichment object as written to wiki-enrichment.json: the loop
result with the cleanup pass applied to every entry. -/
def buildEnrichment (wdMap : String → Option WdEntry) (wiki : String → Option WikiSummary)
    (zupanije gradovi opcine : List Loc) : List (String × EnrichEntry) :=
  (buildEnrichmentRaw wdMap wiki zupanije gradovi opcine).map
    (fun p => (p.1, cleanupEntry p.2))

/-- The stripped name used by a suffix-stripped Wikidata lookup step,
when the step is one. -/
def strippedNameOf (l : Lookup) : Option String :=
  match l with
  | Lookup.wdStripped n _ => some n
  | _ => none

/-- The title used by an alternate-title Wikipedia fetch step, when
the step is one. -/
def altTitleOf (l : Lookup) : Option String :=
  match l with
  | Lookup.wpAlt t _ => some t
  | _ => none

/-- The title used by a primary Wikipedia fetch step, when the step is
one. -/
def primaryTitleOf (l : Lookup) : Option String :=
  match l with
  | Lookup.wpPrimary t _ => some t
  | _ => none

/-- Whether a lookup step is an alternate-title Wikipedia fetch. -/
def isWpAlt (l : Lookup) : Bool :=
  match l with
  | Lookup.wpAlt _ _ => true
  | _ => false

/-- Whether a lookup step is an exact Wikidata lookup that found a
match. -/
def wdExactFound (l : Lookup) : Bool :=
  match l with
  | Lookup.wdExact _ b => b
  | _ => false

/-- An external fetch operation of the enrichment script: one SPARQL
query or one Wikipedia summary request. -/
inductive FetchOp where
  | sparql (label : String)
  | wpSummary (title : String)
deriving DecidableEq, Repr

/-- The Wikipedia fetch operations recorded in a lookup trace, in
order; map accesses are not fetches. -/
def wpOps (tr : List Lookup) : List FetchOp :=
  tr.filterMap (fun l =>
    match l with
    | Lookup.wpPrimary t _ => some (FetchOp.wpSummary t)
    | Lookup.wpAlt t _ => some (FetchOp.wpSummary t)
    | _ => none)

/-- The four SPARQL queries issued together in one Promise.all at the
start of main. -/
def sparqlBatch : List FetchOp :=
  [FetchOp.sparql "settlements", FetchOp.sparql "counties",
   FetchOp.sparql "cities", FetchOp.sparql "municipalities"]

/-- The fetch schedule of one run of the enrichment script: a list of
batches, each batch being the set of fetches in flight together. The
four SPARQL queries form the first batch; every Wikipedia fetch is
awaited on its own before the next one is issued. -/
def fetchSchedule (wdMap : String → Option WdEntry) (wiki : String → Option WikiSummary)
    (zupanije gradovi opcine : List Loc) : List (List FetchOp) :=
  sparqlBatch ::
    (allLocations zupanije gradovi opcine).flatMap
      (fun loc =>
        (wpOps (enrichTrace wdMap wiki zupanije gradovi opcine loc)).map (fun op => [op]))

/-- A sample Wikidata match used in concrete evaluations. -/
def sampleWd : WdEntry :=
  { coatOfArms := some "coa.svg", photo := none, postalCode := some "10000",
    elevation := none, officialWebsite := none, licensePlate := none, sisterCities := [] }

/-- A sample city record used in concrete evaluations. -/
def sampleGrad : Loc :=
  { id := 1, name := "A", slug := "a", type := LocType.grad, county_id := some 7,
    county_name := "C", population_2021 := 40, change_pct := 0, density := 68,
    avg_age := 43, age_65_plus_pct := 20, age_0_14_pct := 15,
    education_university_pct := none, male_pct := 50, female_pct := 50 }

/-- The sample city record with a different slug and identical data. -/
def sampleGrad2 : Loc :=
  { sampleGrad with slug := "a2" }

/-- A sample county record with the given population. -/
def sampleCounty (p : ℚ) : Loc :=
  { id := 7, name := "C", slug := "c", type := LocType.zupanija, county_id := none,
    county_name := "", population_2021 := p, change_pct := 0, density := 0,
    avg_age := 0, age_65_plus_pct := 0, age_0_14_pct := 0,
    education_university_pct := none, male_pct := 0, female_pct := 0 }

/-- A Wikidata map holding exactly the sample match under the name A. -/
def sampleWdMap : String → Option WdEntry :=
  fun n => if n = "A" then some sampleWd else none

/-- A Wikipedia oracle on which every fetch misses. -/
def wikiMissAll : String → Option WikiSummary :=
  fun _ => none

lemma wdPhase_description (wdMap : String → Option WdEntry) (loc : Loc) :
    ((wdPhase wdMap loc).1).description = none := by
  unfold wdPhase
  cases h : wdMap loc.name <;> simp [applyWd, emptyEntry] <;>
    split <;> (try split) <;> simp [applyWd, emptyEntry]

lemma wdPhase_stripped (wdMap : String → Option WdEntry) (loc : Loc) :
    ((wdPhase wdMap loc).2).filterMap strippedNameOf
      = (if (wdMap loc.name).isNone ∧ loc.type = LocType.zupanija
          then [(loc.name.replace " županija" "").replace "Grad " ""] else []) := by
  unfold wdPhase
  cases h : wdMap loc.name <;> simp [strippedNameOf] <;>
    split <;> (try split) <;> simp [strippedNameOf, h]

lemma wdPhase_no_wp (wdMap : String → Option WdEntry) (loc : Loc) :
    ((wdPhase wdMap loc).2).filterMap primaryTitleOf = []
    ∧ ((wdPhase wdMap loc).2).filterMap altTitleOf = [] := by
  unfold wdPhase
  constructor <;>
    (cases h : wdMap loc.name <;> simp [primaryTitleOf, altTitleOf] <;>
      split <;> (try split) <;> simp [primaryTitleOf, altTitleOf])

lemma wpPhase_primary (wiki : String → Option WikiSummary) (loc : Loc) (e : EnrichEntry) :
    ((wpPhase wiki loc e).2).filterMap primaryTitleOf = [getWikiTitle loc] := by
  unfold wpPhase
  cases h : wiki (getWikiTitle loc) <;> simp [h, primaryTitleOf]
  by_cases h1 : loc.type = LocType.opcina
  · have h2 : ¬ loc.type = LocType.grad := by rw [h1]; intro hc; cases hc
    simp [h, h1, h2]
    cases h3 : wiki (loc.name ++ " (općina)") <;> simp [h, h3, primaryTitleOf]
  · simp [h, h1]
    by_cases h2 : loc.type = LocType.grad
    · simp [h, h2]
      by_cases h4 : descFalsy e.description = true
      · simp [h, h4]
        cases h3 : wiki (loc.name ++ " (grad)") <;> simp [h, h3, primaryTitleOf]
      · simp [h, h4, primaryTitleOf]
    · simp [h, h2, primaryTitleOf]

lemma wpPhase_alt (wiki : String → Option WikiSummary) (loc : Loc) (e : EnrichEntry)
    (hd : e.description = none) :
    ((wpPhase wiki loc e).2).filterMap altTitleOf
      = (if (wiki (getWikiTitle loc)).isNone then
          (if loc.type = LocType.opcina then [loc.name ++ " (općina)"]
           else if loc.type = LocType.grad then [loc.name ++ " (grad)"] else [])
         else []) := by
  unfold wpPhase
  cases h : wiki (getWikiTitle loc) <;> simp [h, altTitleOf]
  by_cases h1 : loc.type = LocType.opcina
  · have h2 : ¬ loc.type = LocType.grad := by rw [h1]; intro hc; cases hc
    simp [h, h1, h2]
    cases h3 : wiki (loc.name ++ " (općina)") <;> simp [h, h3, altTitleOf]
  · simp [h, h1]
    by_cases h2 : loc.type = LocType.grad
    · simp [h, h2, hd, descFalsy]
      cases h3 : wiki (loc.name ++ " (grad)") <;> simp [h, h3, altTitleOf]
    · simp [h, h2, altTitleOf]

lemma wpPhase_no_stripped (wiki : String → Option WikiSummary) (loc : Loc) (e : EnrichEntry) :
    ((wpPhase wiki loc e).2).filterMap strippedNameOf = [] := by
  unfold wpPhase
  cases h : wiki (getWikiTitle loc) <;> simp [h, strippedNameOf]
  by_cases h1 : loc.type = LocType.opcina
  · have h2 : ¬ loc.type = LocType.grad := by rw [h1]; intro hc; cases hc
    simp [h, h1, h2]
    cases h3 : wiki (loc.name ++ " (općina)") <;> simp [h, h3, strippedNameOf]
  · simp [h, h1]
    by_cases h2 : loc.type = LocType.grad
    · simp [h, h2]
      by_cases h4 : descFalsy e.description = true
      · simp [h, h4]
        cases h3 : wiki (loc.name ++ " (grad)") <;> simp [h, h3, strippedNameOf]
      · simp [h, h4, strippedNameOf]
    · simp [h, h2, strippedNameOf]

lemma generateConclusions_ne_nil (loc : Loc) (t : LocType) (zs gs os : List Loc) :
    generateConclusions loc t zs gs os ≠ [] := by
  simp [generateConclusions, List.take_eq_nil_iff]

/-- C1 counterexample: for the sample city whose name has an exact
match in the Wikidata map but whose primary Wikipedia fetch misses,
the alternate-title Wikipedia fetch is still attempted even though an
earlier step of the claimed chain found something, so the steps do not
form one strict fallback chain. -/
theorem enrich_fallback_chain_cex :
    ¬ (((enrichTrace sampleWdMap wikiMissAll [] [] [] sampleGrad).any isWpAlt = true) →
       ((enrichTrace sampleWdMap wikiMissAll [] [] [] sampleGrad).any wdExactFound = false)) := by
  decide

/-- C1 amended: the enrichment resolves external metadata by two
independent best-effort chains. The Wikidata chain tries the exact
name and, only when that found nothing and the location is a county,
the name with the zupanija suffix and the Grad prefix stripped. The
Wikipedia chain always fetches the primary title and, exactly when
that found nothing, fetches the alternate title, with the opcina
suffix for municipalities and the grad suffix for cities, regardless
of the Wikidata outcome. -/
theorem enrich_fallback_chains_independent (wdMap : String → Option WdEntry)
    (wiki : String → Option WikiSummary) (zs gs os : List Loc) (loc : Loc) :
    (enrichTrace wdMap wiki zs gs os loc).filterMap strippedNameOf
      = (if (wdMap loc.name).isNone ∧ loc.type = LocType.zupanija
          then [(loc.name.replace " županija" "").replace "Grad " ""] else [])
    ∧ (enrichTrace wdMap wiki zs gs os loc).filterMap primaryTitleOf = [getWikiTitle loc]
    ∧ (enrichTrace wdMap wiki zs gs os loc).filterMap altTitleOf
      = (if (wiki (getWikiTitle loc)).isNone then
          (if loc.type = LocType.opcina then [loc.name ++ " (općina)"]
           else if loc.type = LocType.grad then [loc.name ++ " (grad)"] else [])
         else []) := by
  have he : enrichTrace wdMap wiki zs gs os loc
      = (wdPhase wdMap loc).2 ++ (wpPhase wiki loc (wdPhase wdMap loc).1).2 := rfl
  refine ⟨?_, ?_, ?_⟩ <;> rw [he, List.filterMap_append]
  · rw [wdPhase_stripped, wpPhase_no_stripped, List.append_nil]
  · rw [(wdPhase_no_wp wdMap loc).1, wpPhase_primary, List.nil_append]
  · rw [(wdPhase_no_wp wdMap loc).2,
      wpPhase_alt wiki loc _ (wdPhase_description wdMap loc), List.nil_append]

/-- C2: the search index has one entry per county, city and
municipality, its length is the sum of the three table lengths, the
entries come in table order with counties first, then cities, then
municipalities, each entry carries exactly the five emitted fields by
construction of SearchEntry, and county entries have an empty county
field. -/
theorem search_index_complete (zs gs os : List Loc) :
    (searchIndex zs gs os).length = zs.length + gs.length + os.length
    ∧ searchIndex zs gs os
        = zs.map searchOfZupanija ++ gs.map searchOfGrad ++ os.map searchOfOpcina
    ∧ ((searchIndex zs gs os).take zs.length).all (fun e => e.county == "") = true := by
  refine ⟨by simp [searchIndex, Nat.add_assoc], rfl, ?_⟩
  have e1 : searchIndex zs gs os
      = zs.map searchOfZupanija ++ (gs.map searchOfGrad ++ os.map searchOfOpcina) :=
    List.append_assoc _ _ _
  have hl : zs.length = (zs.map searchOfZupanija).length := by simp
  have h : (searchIndex zs gs os).take zs.length = zs.map searchOfZupanija := by
    rw [e1, hl, List.take_left]
  rw [h, List.all_eq_true]
  intro e he
  obtain ⟨z, hz, rfl⟩ := List.mem_map.mp he
  simp [searchOfZupanija]

/-- C3: the comparison index is the flattening of the city table
followed by the municipality table, one entry each in that order; the
county table is not an argument of compareData, so no county
contributes an entry. -/
theorem compare_index_flattening (gs os : List Loc) :
    compareData gs os = (gs ++ os).map compareOf
    ∧ (compareData gs os).length = gs.length + os.length := by
  constructor
  · rw [List.map_append]; rfl
  · simp [compareData]

/-- C7 counterexample: the same location record and type yield
different sentence lists when only the population of its county in the
county table changes, so the county-comparison sentence is not
selected by comparing the location census statistics against a fixed
numeric threshold; its threshold is thirty percent of the county
population. -/
theorem conclusions_fixed_thresholds_cex :
    generateConclusions sampleGrad LocType.grad [sampleCounty 100] [] []
      ≠ generateConclusions sampleGrad LocType.grad [sampleCounty 200] [] [] := by
  decide

/-- C7 amended: generateConclusions is a deterministic pure function;
its output depends only on the location name, census statistics,
education share and county id, together with the county table used by
the county-comparison sentence, and not on the city or municipality
tables nor on any other record field. -/
theorem generateConclusions_deterministic (l1 l2 : Loc) (t : LocType)
    (zs gs os gs2 os2 : List Loc)
    (hname : l1.name = l2.name) (hpop : l1.population_2021 = l2.population_2021)
    (hch : l1.change_pct = l2.change_pct) (hd : l1.density = l2.density)
    (ha : l1.avg_age = l2.avg_age) (h65 : l1.age_65_plus_pct = l2.age_65_plus_pct)
    (h014 : l1.age_0_14_pct = l2.age_0_14_pct)
    (hedu : l1.education_university_pct = l2.education_university_pct)
    (hcid : l1.county_id = l2.county_id) :
    generateConclusions l1 t zs gs os = generateConclusions l2 t zs gs2 os2 := by
  simp only [generateConclusions, hname, hpop, hch, hd, ha, h65, h014, hedu, hcid]

/-- Witness for C7 amended: two sample city records identical up to
the slug produce the same conclusions. -/
theorem generateConclusions_deterministic_witness :
    generateConclusions sampleGrad LocType.grad [sampleCounty 100] [] []
      = generateConclusions sampleGrad2 LocType.grad [sampleCounty 100] [] [] :=
  generateConclusions_deterministic sampleGrad sampleGrad2 LocType.grad
    [sampleCounty 100] [] [] [] [] rfl rfl rfl rfl rfl rfl rfl rfl rfl

lemma objInsert_of_not_mem (m : List (String × EnrichEntry)) (k : String) (v : EnrichEntry)
    (h : ∀ p ∈ m, p.1 ≠ k) : objInsert m k v = m ++ [(k, v)] := by
  unfold objInsert
  rw [if_neg]
  simp only [List.any_eq_true, beq_iff_eq, not_exists]
  intro p hc
  exact h p hc.1 hc.2

lemma foldl_objInsert_eq_map (f : Loc → EnrichEntry) :
    ∀ (locs : List Loc) (acc : List (String × EnrichEntry)),
      (locs.map Loc.slug).Nodup →
      (∀ l ∈ locs, ∀ p ∈ acc, p.1 ≠ l.slug) →
      locs.foldl (fun m l => objInsert m l.slug (f l)) acc
        = acc ++ locs.map (fun l => (l.slug, f l)) := by
  intro locs
  induction locs with
  | nil => intro acc _ _; simp
  | cons x xs ih =>
    intro acc hnd hdis
    have hnd2 : x.slug ∉ xs.map Loc.slug ∧ (xs.map Loc.slug).Nodup := by
      rw [List.map_cons] at hnd
      exact List.nodup_cons.mp hnd
    rw [List.foldl_cons, objInsert_of_not_mem acc x.slug (f x)
      (fun p hp => hdis x (List.mem_cons_self x xs) p hp)]
    rw [ih (acc ++ [(x.slug, f x)]) hnd2.2 ?_]
    · simp
    · intro l hl p hp
      rcases List.mem_append.mp hp with hpa | hps
      · exact hdis l (List.mem_cons_of_mem x hl) p hpa
      · have hp1 : p.1 = x.slug := by
          have he : p = (x.slug, f x) := by simpa using hps
          rw [he]
        intro hc
        rw [hp1] at hc
        have hmem : l.slug ∈ xs.map Loc.slug := List.mem_map_of_mem Loc.slug hl
        rw [← hc] at hmem
        exact hnd2.1 hmem

lemma objInsert_mem_self (m : List (String × EnrichEntry)) (k : String) (v : EnrichEntry) :
    (k, v) ∈ objInsert m k v := by
  unfold objInsert
  split
  · next hany =>
    obtain ⟨p, hp, hk⟩ := List.any_eq_true.mp hany
    refine List.mem_map.mpr ⟨p, hp, ?_⟩
    rw [if_pos hk]
  · exact List.mem_append_right _ (List.mem_singleton.mpr rfl)

lemma objInsert_mem_or (m : List (String × EnrichEntry)) (k : String) (v : EnrichEntry)
    (p : String × EnrichEntry) (hp : p ∈ objInsert m k v) : p ∈ m ∨ p = (k, v) := by
  unfold objInsert at hp
  split at hp
  · obtain ⟨q, hq, he⟩ := List.mem_map.mp hp
    by_cases hk : q.1 == k
    · rw [if_pos hk] at he
      exact Or.inr he.symm
    · rw [if_neg hk] at he
      exact Or.inl (he ▸ hq)
  · rcases List.mem_append.mp hp with hm | hs
    · exact Or.inl hm
    · exact Or.inr (List.mem_singleton.mp hs)

lemma objInsert_key_preserved (m : List (String × EnrichEntry)) (k : String) (v : EnrichEntry)
    (k0 : String) (h : ∃ v0, (k0, v0) ∈ m) : ∃ v1, (k0, v1) ∈ objInsert m k v := by
  by_cases hk : k0 = k
  · exact ⟨v, hk ▸ objInsert_mem_self m k v⟩
  · obtain ⟨v0, hv0⟩ := h
    refine ⟨v0, ?_⟩
    unfold objInsert
    split
    · refine List.mem_map.mpr ⟨(k0, v0), hv0, ?_⟩
      rw [if_neg (by simpa using hk)]
    · exact List.mem_append_left _ hv0

lemma foldl_key_exists (f : Loc → EnrichEntry) :
    ∀ (locs : List Loc) (acc : List (String × EnrichEntry)) (l : Loc),
      (l ∈ locs ∨ ∃ v0, (l.slug, v0) ∈ acc) →
      ∃ e, (l.slug, e) ∈ locs.foldl (fun m x => objInsert m x.slug (f x)) acc := by
  intro locs
  induction locs with
  | nil =>
    intro acc l h
    rcases h with hm | he
    · cases hm
    · simpa using he
  | cons x xs ih =>
    intro acc l h
    rw [List.foldl_cons]
    apply ih
    rcases h with hm | ⟨v0, hv0⟩
    · rcases List.mem_cons.mp hm with rfl | hxs
      · exact Or.inr ⟨f l, objInsert_mem_self acc l.slug (f l)⟩
      · exact Or.inl hxs
    · exact Or.inr (objInsert_key_preserved acc x.slug (f x) l.slug ⟨v0, hv0⟩)

lemma foldl_values_prop (f : Loc → EnrichEntry) (P : EnrichEntry → Prop)
    (hf : ∀ l, P (f l)) :
    ∀ (locs : List Loc) (acc : List (String × EnrichEntry)),
      (∀ p ∈ acc, P p.2) →
      ∀ p ∈ locs.foldl (fun m x => objInsert m x.slug (f x)) acc, P p.2 := by
  intro locs
  induction locs with
  | nil => intro acc hacc p hp; exact hacc p hp
  | cons x xs ih =>
    intro acc hacc p hp
    rw [List.foldl_cons] at hp
    refine ih (objInsert acc x.slug (f x)) ?_ p hp
    intro q hq
    rcases objInsert_mem_or acc x.slug (f x) q hq with hm | he
    · exact hacc q hm
    · rw [he]
      exact hf x

lemma wdPhase_none_entry (loc : Loc) : (wdPhase (fun _ => none) loc).1 = emptyEntry := by
  unfold wdPhase
  simp
  split <;> rfl

lemma wpPhase_fields (wiki : String → Option WikiSummary) (loc : Loc) (e : EnrichEntry) :
    ((wpPhase wiki loc e).1).coatOfArms = e.coatOfArms
    ∧ ((wpPhase wiki loc e).1).photo = e.photo
    ∧ ((wpPhase wiki loc e).1).postalCode = e.postalCode
    ∧ ((wpPhase wiki loc e).1).elevation = e.elevation
    ∧ ((wpPhase wiki loc e).1).officialWebsite = e.officialWebsite
    ∧ ((wpPhase wiki loc e).1).licensePlate = e.licensePlate
    ∧ ((wpPhase wiki loc e).1).sisterCities = e.sisterCities := by
  unfold wpPhase
  cases h : wiki (getWikiTitle loc) <;> simp [h, wpApply]
  by_cases h1 : loc.type = LocType.opcina
  · have h2 : ¬ loc.type = LocType.grad := by rw [h1]; intro hc; cases hc
    simp [h, h1, h2]
    cases h3 : wiki (loc.name ++ " (općina)") <;> simp [h, h3, wpApply]
  · simp [h, h1]
    by_cases h2 : loc.type = LocType.grad
    · simp [h, h2]
      by_cases h4 : descFalsy e.description = true
      · simp [h, h4]
        cases h3 : wiki (loc.name ++ " (grad)") <;> simp [h, h3, wpApply]
      · simp [h, h4]
    · simp [h, h2]

lemma enrichLocation_noWd (wiki : String → Option WikiSummary) (zs gs os : List Loc) (l : Loc) :
    (enrichLocation (fun _ => none) wiki zs gs os l).coatOfArms = none
    ∧ (enrichLocation (fun _ => none) wiki zs gs os l).photo = none
    ∧ (enrichLocation (fun _ => none) wiki zs gs os l).postalCode = none
    ∧ (enrichLocation (fun _ => none) wiki zs gs os l).elevation = none
    ∧ (enrichLocation (fun _ => none) wiki zs gs os l).officialWebsite = none
    ∧ (enrichLocation (fun _ => none) wiki zs gs os l).licensePlate = none
    ∧ (enrichLocation (fun _ => none) wiki zs gs os l).sisterCities = []
    ∧ (enrichLocation (fun _ => none) wiki zs gs os l).conclusions ≠ [] := by
  have hw := wpPhase_fields wiki l ((wdPhase (fun _ => none) l).1)
  have hz := wdPhase_none_entry l
  refine ⟨?_, ?_, ?_, ?_, ?_, ?_, ?_, ?_⟩
  · show ((wpPhase wiki l (wdPhase (fun _ => none) l).1).1).coatOfArms = none
    rw [hw.1, hz]; rfl
  · show ((wpPhase wiki l (wdPhase (fun _ => none) l).1).1).photo = none
    rw [hw.2.1, hz]; rfl
  · show ((wpPhase wiki l (wdPhase (fun _ => none) l).1).1).postalCode = none
    rw [hw.2.2.1, hz]; rfl
  · show ((wpPhase wiki l (wdPhase (fun _ => none) l).1).1).elevation = none
    rw [hw.2.2.2.1, hz]; rfl
  · show ((wpPhase wiki l (wdPhase (fun _ => none) l).1).1).officialWebsite = none
    rw [hw.2.2.2.2.1, hz]; rfl
  · show ((wpPhase wiki l (wdPhase (fun _ => none) l).1).1).licensePlate = none
    rw [hw.2.2.2.2.2.1, hz]; rfl
  · show ((wpPhase wiki l (wdPhase (fun _ => none) l).1).1).sisterCities = []
    rw [hw.2.2.2.2.2.2, hz]; rfl
  · show generateConclusions l l.type zs gs os ≠ []
    exact generateConclusions_ne_nil l l.type zs gs os

/-- C4: under the assumption that all location slugs are distinct, the
written enrichment object has exactly one entry per location, in
allLocations order, keyed by slug, and the entry stored under a slug
is exactly the cleaned per-location merge of the Wikidata match and
the Wikipedia summary computed by enrichLocation. -/
theorem enrichment_keyed_by_slug (wdMap : String → Option WdEntry)
    (wiki : String → Option WikiSummary) (zs gs os : List Loc)
    (h : ((allLocations zs gs os).map Loc.slug).Nodup) :
    buildEnrichment wdMap wiki zs gs os
      = (allLocations zs gs os).map
          (fun l => (l.slug, cleanupEntry (enrichLocation wdMap wiki zs gs os l)))
    ∧ (buildEnrichment wdMap wiki zs gs os).length = (allLocations zs gs os).length := by
  have hr : buildEnrichmentRaw wdMap wiki zs gs os
      = (allLocations zs gs os).map
          (fun l => (l.slug, enrichLocation wdMap wiki zs gs os l)) := by
    have hm := foldl_objInsert_eq_map (fun l => enrichLocation wdMap wiki zs gs os l)
      (allLocations zs gs os) [] h (by simp)
    simpa [buildEnrichmentRaw] using hm
  constructor
  · unfold buildEnrichment
    rw [hr, List.map_map]
    rfl
  · unfold buildEnrichment
    rw [hr]
    simp

/-- Witness for C4: the enrichment of a single sample city is the
single-entry object under its slug. -/
theorem enrichment_keyed_by_slug_witness :
    buildEnrichment sampleWdMap wikiMissAll [] [] [sampleGrad]
      = (allLocations [] [] [sampleGrad]).map
          (fun l =>
            (l.slug, cleanupEntry (enrichLocation sampleWdMap wikiMissAll [] [] [sampleGrad] l)))
    ∧ (buildEnrichment sampleWdMap wikiMissAll [] [] [sampleGrad]).length
        = (allLocations [] [] [sampleGrad]).length :=
  enrichment_keyed_by_slug sampleWdMap wikiMissAll [] [] [sampleGrad] (by decide)

/-- C6: fetchWikipediaSummary returns null on a non-OK response and on
a network error rather than throwing, and when the Wikidata SPARQL
step fails, leaving the Wikidata map empty, the written enrichment
still holds an entry for every location slug with a nonempty list of
conclusions and with all Wikidata-derived fields absent. -/
theorem external_lookups_best_effort (wiki : String → Option WikiSummary)
    (zs gs os : List Loc) (l : Loc) (hl : l ∈ allLocations zs gs os) :
    (∀ s : Nat, fetchWikipediaSummary (HttpResult.notOk s) = none)
    ∧ fetchWikipediaSummary HttpResult.networkError = none
    ∧ ∃ e, (l.slug, e) ∈ buildEnrichment (fun _ => none) wiki zs gs os
        ∧ e.conclusions ≠ []
        ∧ e.coatOfArms = none ∧ e.photo = none ∧ e.postalCode = none
        ∧ e.elevation = none ∧ e.officialWebsite = none ∧ e.licensePlate = none
        ∧ e.sisterCities = [] := by
  refine ⟨fun s => rfl, rfl, ?_⟩
  obtain ⟨e, he⟩ := foldl_key_exists (fun x => enrichLocation (fun _ => none) wiki zs gs os x)
    (allLocations zs gs os) [] l (Or.inl hl)
  have heRaw : (l.slug, e) ∈ buildEnrichmentRaw (fun _ => none) wiki zs gs os := he
  have hP := foldl_values_prop (fun x => enrichLocation (fun _ => none) wiki zs gs os x)
    (fun v => v.coatOfArms = none ∧ v.photo = none ∧ v.postalCode = none ∧ v.elevation = none
      ∧ v.officialWebsite = none ∧ v.licensePlate = none ∧ v.sisterCities = []
      ∧ v.conclusions ≠ [])
    (fun x => enrichLocation_noWd wiki zs gs os x)
    (allLocations zs gs os) [] (by simp) (l.slug, e) heRaw
  refine ⟨cleanupEntry e, ?_, ?_, ?_, ?_, ?_, ?_, ?_, ?_, ?_⟩
  · show (l.slug, cleanupEntry e) ∈ buildEnrichment (fun _ => none) wiki zs gs os
    unfold buildEnrichment
    exact List.mem_map.mpr ⟨(l.slug, e), heRaw, rfl⟩
  · show e.conclusions ≠ []
    exact hP.2.2.2.2.2.2.2
  · show falsyToNull e.coatOfArms = none
    rw [hP.1]; rfl
  · show falsyToNull e.photo = none
    rw [hP.2.1]; rfl
  · show falsyToNull e.postalCode = none
    rw [hP.2.2.1]; rfl
  · show e.elevation = none
    exact hP.2.2.2.1
  · show falsyToNull e.officialWebsite = none
    rw [hP.2.2.2.2.1]; rfl
  · show falsyToNull e.licensePlate = none
    rw [hP.2.2.2.2.2.1]; rfl
  · show e.sisterCities = []
    exact hP.2.2.2.2.2.2.1

/-- Witness for C6: with an empty Wikidata map and all Wikipedia
fetches missing, the sample city still receives an entry with
conclusions and no Wikidata fields. -/
theorem external_lookups_best_effort_witness :
    (∀ s : Nat, fetchWikipediaSummary (HttpResult.notOk s) = none)
    ∧ fetchWikipediaSummary HttpResult.networkError = none
    ∧ ∃ e, (sampleGrad.slug, e) ∈ buildEnrichment (fun _ => none) wikiMissAll [] [] [sampleGrad]
        ∧ e.conclusions ≠ []
        ∧ e.coatOfArms = none ∧ e.photo = none ∧ e.postalCode = none
        ∧ e.elevation = none ∧ e.officialWebsite = none ∧ e.licensePlate = none
        ∧ e.sisterCities = [] :=
  external_lookups_best_effort wikiMissAll [] [] [sampleGrad] sampleGrad (by decide)

/-- C5 counterexample: already on the empty data tables, the fetch
schedule of the enrichment script has a batch with four fetch
operations in flight together, the four Wikidata SPARQL queries
issued in one Promise.all, so not every pair of external fetches is
sequential. -/
theorem fetch_concurrency_cex :
    (fetchSchedule (fun _ => none) (fun _ => none) [] [] []).all
        (fun b => decide (b.length ≤ 1)) = false
    ∧ ((fetchSchedule (fun _ => none) (fun _ => none) [] [] []).head?.map List.length)
        = some 4 := by
  decide

/-- C5 amended: every run issues the four SPARQL queries concurrently
as the first batch of the schedule, and every Wikipedia fetch after
that is sequential: each later batch holds exactly one operation. -/
theorem fetch_schedule_shape (wdMap : String → Option WdEntry)
    (wiki : String → Option WikiSummary) (zs gs os : List Loc) :
    (fetchSchedule wdMap wiki zs gs os).head? = some sparqlBatch
    ∧ sparqlBatch.length = 4
    ∧ ((fetchSchedule wdMap wiki zs gs os).tail.all (fun b => decide (b.length = 1))) = true := by
  refine ⟨rfl, rfl, ?_⟩
  rw [List.all_eq_true]
  intro b hb
  have hb2 : b ∈ (allLocations zs gs os).flatMap
      (fun loc => (wpOps (enrichTrace wdMap wiki zs gs os loc)).map (fun op => [op])) := hb
  obtain ⟨loc, hloc, hbm⟩ := List.mem_flatMap.mp hb2
  obtain ⟨op, hop, rfl⟩ := List.mem_map.mp hbm
  simp
